import Mathlib

/-! Shallow embedding of the scoring and pick-lock core of an NBA pick'em
backend (`app/services/game_service.py` and `app/utils/week_lock.py`),
together with proofs of the specified properties.

Modelling conventions:
* UUID primary keys are modelled as `Nat`; the source compares them with
  `str(a) == str(b)`, and `str` is injective on UUIDs, so plain equality
  of the `Nat` ids is the faithful translation.
* SQL `NULL`-able columns become `Option`; `Date` and `DateTime` columns
  become `Nat` instants already in UTC, so Python's
  `replace(tzinfo=timezone.utc)` on a naive stored timestamp is the
  identity on the instant.
* The ORM session is a record of entity tables (`DB`); queries become
  list combinators and row updates become pure state transformations.
* `ORDER BY game_datetime ASC ... LIMIT 1` is embedded as a merge sort
  by the datetime key followed by `head?`, so that "the first game" is
  not definitionally the minimum: that equation is proved, not assumed.
-/

namespace NbaPickem

/-- Row of the `users` table (fields the scoring core reads). -/
structure User where
  id : Nat
  total_points : Int
deriving DecidableEq, Inhabited

/-- Row of the `seasons` table. -/
structure Season where
  id : Nat
  year : Nat
deriving DecidableEq, Inhabited

/-- Row of the `weeks` table.  `lock_time` is guarded for absence by
`week_lock.py` (`if hasattr(week, 'lock_time') and week.lock_time`),
hence `Option`. -/
structure Week where
  id : Nat
  number : Nat
  start_date : Nat
  end_date : Nat
  lock_time : Option Nat
  season_id : Nat
deriving DecidableEq, Inhabited

/-- Row of the `games` table.  `winner_id` is `none` until the game is
final; `game_datetime` is the optional precise start timestamp;
`game_service.py` guards `if not game.date`, hence `date : Option Nat`. -/
structure Game where
  id : Nat
  nba_game_id : Option String
  home_team_id : Nat
  away_team_id : Nat
  winner_id : Option Nat
  week_id : Option Nat
  date : Option Nat
  game_datetime : Option Nat
  home_team_score : Option Int
  away_team_score : Option Int
deriving DecidableEq, Inhabited

/-- Row of the `team_selections` table. -/
structure TeamSelection where
  id : Nat
  user_id : Nat
  team_id : Nat
  season_id : Nat
  week_id : Nat
  total_points : Option Int
  is_superweek : Bool
  is_shoot_the_moon : Bool
deriving DecidableEq, Inhabited

/-- The database state seen by one request: one list per table. -/
structure DB where
  users : List User
  seasons : List Season
  weeks : List Week
  games : List Game
  selections : List TeamSelection
deriving DecidableEq, Inhabited

/-- Embeds `get_week_for_date`: first week whose inclusive `[start_date, end_date]`
range contains the date. -/
def get_week_for_date (db : DB) (game_date : Nat) : Option Week :=
  db.weeks.find? (fun w => decide (w.start_date ≤ game_date) && decide (game_date ≤ w.end_date))

/-- The game filter of `calculate_team_week_record`: game date inside the
week's range and the team is home or away.  A game with no date matches no
SQL range comparison. -/
def gameInWeekRangeForTeam (team_id : Nat) (week : Week) (g : Game) : Bool :=
  match g.date with
  | none => false
  | some d =>
      decide (week.start_date ≤ d) && decide (d ≤ week.end_date) &&
        (g.home_team_id == team_id || g.away_team_id == team_id)

/-- Return value of `calculate_team_week_record`. -/
structure WeekRecord where
  wins : Nat
  losses : Nat
  games_pending : Nat
  total_games : Nat
  all_games_complete : Bool
deriving DecidableEq, Inhabited

/-- Embeds `calculate_team_week_record`: the source's single loop classifies each
game into exactly one of the three disjoint branches (`winner_id is None`
pending / winner is the team / winner is the other team), so the three
counters are the three corresponding `countP`s over the filtered games. -/
def calculate_team_week_record (db : DB) (team_id : Nat) (week : Week) : WeekRecord :=
  let games := db.games.filter (gameInWeekRangeForTeam team_id week)
  let wins := games.countP (fun g => g.winner_id == some team_id)
  let losses := games.countP (fun g =>
    match g.winner_id with
    | none => false
    | some w => w != team_id)
  let games_pending := games.countP (fun g => g.winner_id == none)
  { wins := wins, losses := losses, games_pending := games_pending,
    total_games := games.length,
    all_games_complete := games_pending == 0 }

/-- Embeds `calculate_selection_points`: returns `0` when the selection's week id
does not resolve; a pending game zeroes a shoot-the-moon selection; a
complete shoot-the-moon selection scores `2 × losses` iff `wins == 0` and
`losses > 0`; otherwise `2 × wins` for superweek and `wins` for a regular
pick (partial/live scoring: no completeness gate on this path). -/
def calculate_selection_points (db : DB) (selection : TeamSelection) : Int :=
  match db.weeks.find? (fun w => w.id == selection.week_id) with
  | none => 0
  | some week =>
      let record := calculate_team_week_record db selection.team_id week
      if !record.all_games_complete && selection.is_shoot_the_moon then 0
      else if selection.is_shoot_the_moon then
        if record.wins == 0 && decide (0 < record.losses) then (record.losses : Int) * 2
        else 0
      else if selection.is_superweek then (record.wins : Int) * 2
      else (record.wins : Int)

/-- Embeds `sum(s.total_points or 0 for s in selections-of-user)`: the full
re-sum of one user's selections, across all seasons. -/
def sumUserSelectionPoints (selections : List TeamSelection) (uid : Nat) : Int :=
  ((selections.filter (fun s => s.user_id == uid)).map (fun s => s.total_points.getD 0)).sum

/-- The distinct user ids among a week's selections: the `affected_users`
set built by `update_game_and_recalculate_points`. -/
def weekSelectionUserIds (selections : List TeamSelection) (week_id : Nat) : List Nat :=
  ((selections.filter (fun s => s.week_id == week_id)).map (fun s => s.user_id)).dedup

/-- The distinct user ids among a season's selections: the `users_affected`
set built by `retabulate_season`. -/
def seasonSelectionUserIds (selections : List TeamSelection) (season_id : Nat) : List Nat :=
  ((selections.filter (fun s => s.season_id == season_id)).map (fun s => s.user_id)).dedup

/-- The per-user re-sum loop shared by the three recomputation passes:
for each id in the affected set, look the user up and overwrite
`total_points` with the full sum over that user's selections.  `User.id`
is the table's primary key, so the per-id `filter(...).first()` lookup
touches exactly the users whose id is in the set, and the iteration order
over the set is immaterial because each write depends only on
`selections`; hence the pointwise guarded map. -/
def resumUsers (users : List User) (selections : List TeamSelection) (uids : List Nat) : List User :=
  users.map (fun u =>
    if u.id ∈ uids then { u with total_points := sumUserSelectionPoints selections u.id }
    else u)

/-- Return payload of `update_game_and_recalculate_points`. -/
structure GameUpdateResult where
  winner_id : Option Nat
  week_number : Option Nat
  affected_users : Nat
  points_awarded : Int
  error : Option String
deriving DecidableEq, Inhabited

/-- The winner computed by `update_game_and_recalculate_points`: the side
with the strictly greater score, `none` on equal scores. -/
def gameWinner (game : Game) (home_score away_score : Int) : Option Nat :=
  if away_score < home_score then some game.home_team_id
  else if home_score < away_score then some game.away_team_id
  else none

/-- Step 1 of `update_game_and_recalculate_points`: persist the two scores
and the winner reference on the game row. -/
def writeGameResult (db : DB) (game : Game) (home_score away_score : Int) : DB :=
  { db with games := db.games.map (fun g =>
    if g.id == game.id then
      { g with home_team_score := some home_score,
               away_team_score := some away_score,
               winner_id := gameWinner game home_score away_score }
    else g) }

/-- The recompute loop of `update_game_and_recalculate_points`: overwrite
`total_points` of every selection of the week with freshly computed
points (`calculate_selection_points` reads only weeks and games, so the
loop's in-place writes cannot influence later iterations). -/
def recomputeWeekSelections (db : DB) (week : Week) : DB :=
  { db with selections := db.selections.map (fun s =>
    if s.week_id == week.id then
      { s with total_points := some (calculate_selection_points db s) }
    else s) }

/-- The running `total_points_awarded` accumulated by the recompute loop:
the sum of the freshly computed points over the week's selections. -/
def weekPointsAwarded (db : DB) (week : Week) : Int :=
  ((db.selections.filter (fun s => s.week_id == week.id)).map
    (fun s => calculate_selection_points db s)).sum

/-- Embeds `update_game_and_recalculate_points`.  Here `none` models the raised
`ValueError` when no game carries the NBA game id.  Otherwise the scores
and the strictly-greater-score winner are written to the game first; if
the game has no date or its date resolves to no week the function stops
there with an informational `error` string and zero counters (the score
write is kept); otherwise every selection of the resolved week is
recomputed and every affected user is re-summed. -/
def update_game_and_recalculate_points (db : DB) (game_id : String)
    (home_score away_score : Int) : Option (DB × GameUpdateResult) :=
  match db.games.find? (fun g => g.nba_game_id == some game_id) with
  | none => none
  | some game =>
      let db1 : DB := writeGameResult db game home_score away_score
      match game.date with
      | none =>
          some (db1, { winner_id := gameWinner game home_score away_score,
                       week_number := none,
                       affected_users := 0, points_awarded := 0,
                       error := some "Game has no date" })
      | some d =>
          match get_week_for_date db1 d with
          | none =>
              some (db1, { winner_id := gameWinner game home_score away_score,
                           week_number := none,
                           affected_users := 0, points_awarded := 0,
                           error := some "Could not determine week" })
          | some week =>
              let db2 : DB := recomputeWeekSelections db1 week
              let db3 : DB := { db2 with
                users := resumUsers db2.users db2.selections
                  (weekSelectionUserIds db1.selections week.id) }
              some (db3, { winner_id := gameWinner game home_score away_score,
                           week_number := some week.number,
                           affected_users := (weekSelectionUserIds db1.selections week.id).length,
                           points_awarded := weekPointsAwarded db1 week,
                           error := none })

/-- Return payload of `recalculate_all_points`. -/
structure RecalcResult where
  selections_processed : Nat
  users_affected : Nat
  total_points_awarded : Int
deriving DecidableEq, Inhabited

/-- Embeds `recalculate_all_points`: zero every user's and selection's points,
recompute `calculate_selection_points` for every selection (the function
reads only weeks and games, so the in-loop writes to other selections
cannot influence it), then re-sum every user. -/
def recalculate_all_points (db : DB) : DB × RecalcResult :=
  let dbReset : DB := { db with
    users := db.users.map (fun u => { u with total_points := 0 }),
    selections := db.selections.map (fun s => { s with total_points := some 0 }) }
  let dbCalc : DB := { dbReset with selections := dbReset.selections.map (fun s =>
    { s with total_points := some (calculate_selection_points dbReset s) }) }
  let dbFinal : DB := { dbCalc with users := dbCalc.users.map (fun u =>
    { u with total_points := sumUserSelectionPoints dbCalc.selections u.id }) }
  (dbFinal,
   { selections_processed := dbReset.selections.length,
     users_affected := ((dbReset.selections.map (fun s => s.user_id)).dedup).length,
     total_points_awarded :=
       (dbReset.selections.map (fun s => calculate_selection_points dbReset s)).sum })

/-- One entry of `retabulate_season`'s `changes` list. -/
structure SelectionChange where
  user_id : Nat
  team_id : Nat
  week_number : Option Nat
  old_points : Int
  new_points : Int
  difference : Int
  is_superweek : Bool
  is_shoot_the_moon : Bool
  record : String
deriving DecidableEq, Inhabited

/-- The change record `retabulate_season` emits for one selection:
`none` when the recomputed points equal the stored ones (`or 0`), else
the audit record; the `record` string and `week_number` degrade when the
selection's week id does not resolve. -/
def changeFor (db : DB) (s : TeamSelection) : Option SelectionChange :=
  let old_points : Int := s.total_points.getD 0
  let new_points : Int := calculate_selection_points db s
  if old_points = new_points then none
  else
    match db.weeks.find? (fun w => w.id == s.week_id) with
    | some week =>
        let record := calculate_team_week_record db s.team_id week
        some { user_id := s.user_id, team_id := s.team_id,
               week_number := some week.number,
               old_points := old_points, new_points := new_points,
               difference := new_points - old_points,
               is_superweek := s.is_superweek,
               is_shoot_the_moon := s.is_shoot_the_moon,
               record := toString record.wins ++ "-" ++ toString record.losses }
    | none =>
        some { user_id := s.user_id, team_id := s.team_id,
               week_number := none,
               old_points := old_points, new_points := new_points,
               difference := new_points - old_points,
               is_superweek := s.is_superweek,
               is_shoot_the_moon := s.is_shoot_the_moon,
               record := "Unknown" }

/-- The recompute loop of `retabulate_season`: overwrite `total_points`
of every selection of the season with freshly computed points. -/
def recomputeSeasonSelections (db : DB) (season_id : Nat) : DB :=
  { db with selections := db.selections.map (fun s =>
    if s.season_id == season_id then
      { s with total_points := some (calculate_selection_points db s) }
    else s) }

/-- Return payload of `retabulate_season`. -/
structure RetabulateResult where
  season_id : Nat
  season_year : Nat
  selections_found : Nat
  selections_updated : Nat
  users_affected : Nat
  total_points_awarded : Int
  changes : List SelectionChange
deriving DecidableEq, Inhabited

/-- Embeds `retabulate_season`.  Here `none` models the raised `ValueError` when the
season id resolves to no season.  With no selections in the season the
state is untouched and an all-zero report is returned; otherwise every
selection of the season is recomputed (against the pre-pass state, which
`calculate_selection_points` only reads through weeks and games), each
changed selection contributes a change record, and the touched users are
re-summed. -/
def retabulate_season (db : DB) (season_id : Nat) : Option (DB × RetabulateResult) :=
  match db.seasons.find? (fun s => s.id == season_id) with
  | none => none
  | some season =>
      let selections := db.selections.filter (fun s => s.season_id == season_id)
      if selections.isEmpty then
        some (db, { season_id := season_id, season_year := season.year,
                    selections_found := 0, selections_updated := 0,
                    users_affected := 0, total_points_awarded := 0, changes := [] })
      else
        let dbSel : DB := recomputeSeasonSelections db season_id
        let dbFinal : DB := { dbSel with
          users := resumUsers dbSel.users dbSel.selections
            (seasonSelectionUserIds db.selections season_id) }
        some (dbFinal,
          { season_id := season_id, season_year := season.year,
            selections_found := selections.length,
            selections_updated := (selections.filterMap (changeFor db)).length,
            users_affected := (seasonSelectionUserIds db.selections season_id).length,
            total_points_awarded :=
              (selections.map (fun s => calculate_selection_points db s)).sum,
            changes := selections.filterMap (changeFor db) })

/-- The `week_lock.py` query: games of the week (by `week_id` foreign key)
whose `game_datetime` is not null. -/
def timedWeekGames (db : DB) (week : Week) : List Game :=
  db.games.filter (fun g => g.week_id == some week.id && g.game_datetime.isSome)

/-- Datetime ordering used by `ORDER BY game_datetime ASC`. -/
def byGameDatetime (a b : Game) : Bool :=
  decide (a.game_datetime.getD 0 ≤ b.game_datetime.getD 0)

/-- Embeds `ORDER BY game_datetime ASC ... first()`: sort the filtered games by
datetime and take the first row, if any. -/
def firstTimedGame (db : DB) (week : Week) : Option Game :=
  ((timedWeekGames db week).mergeSort byGameDatetime).head?

/-- The start timestamps carried by the week's timed games. -/
def weekGameDatetimes (db : DB) (week : Week) : List Nat :=
  (timedWeekGames db week).filterMap (fun g => g.game_datetime)

/-- Embeds `is_week_locked` (with the clock passed explicitly): lock at the first
timed game's start, falling back to the week's stored `lock_time`, never
locked when neither exists; `locked` is `current_time >= lock_time`. -/
def is_week_locked (now : Nat) (db : DB) (week : Week) : Bool × Option Nat :=
  match firstTimedGame db week with
  | some first_game =>
      match first_game.game_datetime with
      | some t => (decide (t ≤ now), some t)
      | none =>
          match week.lock_time with
          | some lt => (decide (lt ≤ now), some lt)
          | none => (false, none)
  | none =>
      match week.lock_time with
      | some lt => (decide (lt ≤ now), some lt)
      | none => (false, none)

/-- Embeds `get_week_lock_time`: the first timed game's start, else the stored
`lock_time`, else `none`. -/
def get_week_lock_time (db : DB) (week : Week) : Option Nat :=
  match firstTimedGame db week with
  | some first_game =>
      match first_game.game_datetime with
      | some t => some t
      | none => week.lock_time
  | none => week.lock_time

/-! Concrete database used to exercise the theorems on closed inputs:
two seasons (season 2 empty), two weeks, three users, three games.
Game 2 was inserted after game 1 but starts earlier (datetime 55 < 60),
and game 3's date (999) falls in no week's range. -/

/-- Week 1 of season 1, covering dates 100–106. -/
def exWeek10 : Week :=
  { id := 10, number := 1, start_date := 100, end_date := 106,
    lock_time := some 50, season_id := 1 }

/-- Week 2 of season 1, covering dates 200–206, with no stored lock time. -/
def exWeek20 : Week :=
  { id := 20, number := 2, start_date := 200, end_date := 206,
    lock_time := none, season_id := 1 }

/-- Finished game in week 1: team 200 beat team 100. -/
def exGame1 : Game :=
  { id := 1, nba_game_id := some "G1", home_team_id := 100, away_team_id := 200,
    winner_id := some 200, week_id := some 10, date := some 101,
    game_datetime := some 60, home_team_score := some 90, away_team_score := some 100 }

/-- Pending game in week 1 between teams 100 and 200; starts before game 1. -/
def exGame2 : Game :=
  { id := 2, nba_game_id := some "G2", home_team_id := 100, away_team_id := 200,
    winner_id := none, week_id := some 10, date := some 102,
    game_datetime := some 55, home_team_score := none, away_team_score := none }

/-- Game whose date (999) belongs to no week. -/
def exGame3 : Game :=
  { id := 3, nba_game_id := some "G3", home_team_id := 100, away_team_id := 300,
    winner_id := none, week_id := none, date := some 999,
    game_datetime := none, home_team_score := none, away_team_score := none }

/-- Shoot-the-moon pick of team 100 by user 1. -/
def exSel1 : TeamSelection :=
  { id := 1, user_id := 1, team_id := 100, season_id := 1, week_id := 10,
    total_points := none, is_superweek := false, is_shoot_the_moon := true }

/-- Regular pick of team 100 by user 2, carrying stale stored points. -/
def exSel2 : TeamSelection :=
  { id := 2, user_id := 2, team_id := 100, season_id := 1, week_id := 10,
    total_points := some 5, is_superweek := false, is_shoot_the_moon := false }

/-- Superweek pick of team 200 by user 3. -/
def exSel3 : TeamSelection :=
  { id := 3, user_id := 3, team_id := 200, season_id := 1, week_id := 10,
    total_points := some 0, is_superweek := true, is_shoot_the_moon := false }

/-- The sample database state. -/
def exDB : DB :=
  { users := [{ id := 1, total_points := 7 }, { id := 2, total_points := 5 },
              { id := 3, total_points := 0 }],
    seasons := [{ id := 1, year := 2024 }, { id := 2, year := 2025 }],
    weeks := [exWeek10, exWeek20],
    games := [exGame1, exGame2, exGame3],
    selections := [exSel1, exSel2, exSel3] }

/-- State and payload after scoring game 2 (team 200 wins 95–80 away). -/
def exUpdPair : DB × GameUpdateResult :=
  (update_game_and_recalculate_points exDB "G2" 80 95).getD default

/-- State and payload after scoring game 1 (team 200 wins 100–95). -/
def exUpdPair7 : DB × GameUpdateResult :=
  (update_game_and_recalculate_points exDB "G1" 95 100).getD default

/-- State and payload after retabulating season 1 of the sample database. -/
def exRetabPair : DB × RetabulateResult :=
  (retabulate_season exDB 1).getD default

/-- State after a full recalculation of the sample database. -/
def exRecalcDB : DB :=
  (recalculate_all_points exDB).1

/-!  Helper lemmas. -/

/-- `calculate_selection_points` reads the database only through its
`weeks` and `games` tables. -/
theorem calculate_selection_points_congr (db db' : DB) (s : TeamSelection)
    (hw : db.weeks = db'.weeks) (hg : db.games = db'.games) :
    calculate_selection_points db s = calculate_selection_points db' s := by
  unfold calculate_selection_points calculate_team_week_record
  rw [hw, hg]

/-- `calculate_selection_points` ignores the selection's stored points. -/
theorem calculate_selection_points_set_total (db : DB) (s : TeamSelection) (t : Option Int) :
    calculate_selection_points db { s with total_points := t } =
      calculate_selection_points db s := rfl

/-- `get_week_for_date` reads the database only through its `weeks` table. -/
theorem get_week_for_date_congr (db db' : DB) (d : Nat) (hw : db.weeks = db'.weeks) :
    get_week_for_date db d = get_week_for_date db' d := by
  unfold get_week_for_date
  rw [hw]

/-- After the score write, some game row carries the game's id, the two
scores, and the computed winner. -/
theorem writeGameResult_games_mem (db : DB) (game : Game) (hs as : Int)
    (hmem : game ∈ db.games) :
    ∃ g' ∈ (writeGameResult db game hs as).games, g'.id = game.id
      ∧ g'.home_team_score = some hs ∧ g'.away_team_score = some as
      ∧ g'.winner_id = gameWinner game hs as := by
  unfold writeGameResult
  refine ⟨_, List.mem_map.mpr ⟨game, hmem, rfl⟩, ?_, ?_, ?_, ?_⟩ <;> simp

/-- A selection of the week holds the freshly computed points after the
recompute loop. -/
theorem recomputeWeekSelections_points (db : DB) (week : Week) (s : TeamSelection)
    (hs : s ∈ (recomputeWeekSelections db week).selections) (hw : s.week_id = week.id) :
    s.total_points = some (calculate_selection_points db s) := by
  unfold recomputeWeekSelections at hs
  obtain ⟨s0, hs0, heq⟩ := List.mem_map.mp hs
  by_cases h0 : s0.week_id = week.id
  · have hb : (s0.week_id == week.id) = true := beq_iff_eq.mpr h0
    simp only [hb, eq_self_iff_true, if_true] at heq
    rw [← heq]
    exact congrArg some (calculate_selection_points_set_total db s0 _).symm
  · simp only [beq_iff_eq, h0, if_false] at heq
    rw [← heq] at hw
    exact absurd hw h0

/-- A user whose id is in the affected set leaves the re-sum loop with
`total_points` equal to the full sum over that user's selections. -/
theorem resumUsers_total (users : List User) (sels : List TeamSelection) (uids : List Nat)
    (u : User) (hu : u ∈ resumUsers users sels uids) (hid : u.id ∈ uids) :
    u.total_points = sumUserSelectionPoints sels u.id := by
  unfold resumUsers at hu
  obtain ⟨u0, hu0, heq⟩ := List.mem_map.mp hu
  by_cases h0 : u0.id ∈ uids
  · rw [if_pos h0] at heq
    rw [← heq]
  · rw [if_neg h0] at heq
    rw [← heq] at hid
    exact absurd hid h0

/-- The week recompute step preserves every field of a selection except
its stored points. -/
theorem weekRecomputeFun_fields (db : DB) (week : Week) (s : TeamSelection) :
    ((fun s => if s.week_id == week.id then
        { s with total_points := some (calculate_selection_points db s) }
      else s) s).week_id = s.week_id
    ∧ ((fun s => if s.week_id == week.id then
        { s with total_points := some (calculate_selection_points db s) }
      else s) s).user_id = s.user_id := by
  by_cases hc : s.week_id = week.id
  · simp [hc]
  · simp [hc]

/-- The week recompute loop does not change which users have selections
in any week. -/
theorem weekSelectionUserIds_recompute (db : DB) (week : Week) (wid : Nat) :
    weekSelectionUserIds (recomputeWeekSelections db week).selections wid =
      weekSelectionUserIds db.selections wid := by
  unfold weekSelectionUserIds recomputeWeekSelections
  rw [List.filter_map, List.map_map]
  have hp : (fun s : TeamSelection => s.week_id == wid) ∘ (fun s =>
      if s.week_id == week.id then
        { s with total_points := some (calculate_selection_points db s) }
      else s) = fun s => s.week_id == wid := by
    funext s
    simp only [Function.comp_apply]
    rw [(weekRecomputeFun_fields db week s).1]
  rw [hp]
  have hu : (fun s : TeamSelection => s.user_id) ∘ (fun s =>
      if s.week_id == week.id then
        { s with total_points := some (calculate_selection_points db s) }
      else s) = fun s => s.user_id := by
    funext s
    simp only [Function.comp_apply]
    rw [(weekRecomputeFun_fields db week s).2]
  rw [hu]

/-- After the week recompute loop, summing the stored points of the
week's selections yields the awarded total. -/
theorem weekPointsAwarded_stored (db : DB) (week : Week) :
    (((recomputeWeekSelections db week).selections.filter
        (fun s => s.week_id == week.id)).map (fun s => s.total_points.getD 0)).sum =
      weekPointsAwarded db week := by
  unfold recomputeWeekSelections weekPointsAwarded
  rw [List.filter_map, List.map_map]
  have hp : (fun s : TeamSelection => s.week_id == week.id) ∘ (fun s =>
      if s.week_id == week.id then
        { s with total_points := some (calculate_selection_points db s) }
      else s) = fun s => s.week_id == week.id := by
    funext s
    simp only [Function.comp_apply]
    rw [(weekRecomputeFun_fields db week s).1]
  rw [hp]
  congr 1
  apply List.map_congr_left
  intro s hsmem
  have hc := (List.mem_filter.mp hsmem).2
  simp only [beq_iff_eq] at hc
  simp [hc]

/-- A selection whose stored points differ from the recomputed ones
yields a change record carrying the old points, the new points, their
difference, and both modifiers. -/
theorem changeFor_fields_of_ne (db : DB) (s : TeamSelection)
    (hne : s.total_points.getD 0 ≠ calculate_selection_points db s) :
    ∃ c, changeFor db s = some c
      ∧ c.user_id = s.user_id ∧ c.team_id = s.team_id
      ∧ c.old_points = s.total_points.getD 0
      ∧ c.new_points = calculate_selection_points db s
      ∧ c.difference = calculate_selection_points db s - s.total_points.getD 0
      ∧ c.is_superweek = s.is_superweek
      ∧ c.is_shoot_the_moon = s.is_shoot_the_moon := by
  cases hfw : db.weeks.find? (fun w => w.id == s.week_id) with
  | some week =>
      exact ⟨_, by unfold changeFor; dsimp only; rw [if_neg hne, hfw],
        rfl, rfl, rfl, rfl, rfl, rfl, rfl⟩
  | none =>
      exact ⟨_, by unfold changeFor; dsimp only; rw [if_neg hne, hfw],
        rfl, rfl, rfl, rfl, rfl, rfl, rfl⟩

/-!  Claim theorems. -/

/-- Claim C1: for a shoot-the-moon selection whose week resolves,
`points()` is `2 × losses` exactly when the team's week record is fully
complete with `wins = 0` and `losses > 0`, and `0` in every other case
(any win, zero games played, or any pending game). -/
theorem shoot_the_moon_points_spec (db : DB) (sel : TeamSelection) (week : Week)
    (hstm : sel.is_shoot_the_moon = true)
    (hw : db.weeks.find? (fun w => w.id == sel.week_id) = some week) :
    calculate_selection_points db sel =
      if (calculate_team_week_record db sel.team_id week).all_games_complete = true
          ∧ (calculate_team_week_record db sel.team_id week).wins = 0
          ∧ 0 < (calculate_team_week_record db sel.team_id week).losses
      then 2 * ((calculate_team_week_record db sel.team_id week).losses : Int)
      else 0 := by
  unfold calculate_selection_points
  rw [hw]
  cases hc : (calculate_team_week_record db sel.team_id week).all_games_complete with
  | false => simp [hstm, hc]
  | true =>
      cases hb : ((calculate_team_week_record db sel.team_id week).wins == 0
          && decide (0 < (calculate_team_week_record db sel.team_id week).losses)) with
      | false =>
          simp only [Bool.and_eq_false_iff, beq_eq_false_iff_ne, ne_eq,
            decide_eq_false_iff_not, Nat.not_lt, Nat.le_zero] at hb
          simp only [hstm, hc, Bool.not_true, Bool.false_and, Bool.and_true, if_false,
            if_true, beq_iff_eq, decide_eq_true_eq]
          rcases hb with hb | hb
          · simp [hb]
          · simp [hb]
      | true =>
          simp only [Bool.and_eq_true, beq_iff_eq, decide_eq_true_eq] at hb
          simp only [hstm, hc, Bool.not_true, Bool.false_and, Bool.and_true, if_false,
            beq_iff_eq, decide_eq_true_eq]
          simp [hb.1, hb.2, mul_comm]

/-- Closed instance of claim C1: user 1's shoot-the-moon pick in the
sample database (one loss, one pending game) scores by the stated rule. -/
theorem shoot_the_moon_points_spec_witness :
    calculate_selection_points exDB exSel1 =
      if (calculate_team_week_record exDB exSel1.team_id exWeek10).all_games_complete = true
          ∧ (calculate_team_week_record exDB exSel1.team_id exWeek10).wins = 0
          ∧ 0 < (calculate_team_week_record exDB exSel1.team_id exWeek10).losses
      then 2 * ((calculate_team_week_record exDB exSel1.team_id exWeek10).losses : Int)
      else 0 :=
  shoot_the_moon_points_spec exDB exSel1 exWeek10 rfl rfl

/-- Claim C2: for a selection without shoot-the-moon whose week resolves,
`points()` is the team's count of games won (games in the week's date
range with the team's id recorded as winner), doubled when `superweek`
is set, with no completeness gate. -/
theorem regular_superweek_points_spec (db : DB) (sel : TeamSelection) (week : Week)
    (hstm : sel.is_shoot_the_moon = false)
    (hw : db.weeks.find? (fun w => w.id == sel.week_id) = some week) :
    calculate_selection_points db sel =
      (if sel.is_superweek then 2 else 1) *
        (((db.games.filter (gameInWeekRangeForTeam sel.team_id week)).countP
          (fun g => g.winner_id == some sel.team_id) : Nat) : Int) := by
  unfold calculate_selection_points
  rw [hw]
  cases hsw : sel.is_superweek with
  | false => simp [hstm, hsw, calculate_team_week_record]
  | true => simp [hstm, hsw, calculate_team_week_record, mul_comm]

/-- Closed instance of claim C2: user 3's superweek pick of team 200 in
the sample database scores twice its one completed win. -/
theorem regular_superweek_points_spec_witness :
    calculate_selection_points exDB exSel3 =
      (if exSel3.is_superweek then 2 else 1) *
        (((exDB.games.filter (gameInWeekRangeForTeam exSel3.team_id exWeek10)).countP
          (fun g => g.winner_id == some exSel3.team_id) : Nat) : Int) :=
  regular_superweek_points_spec exDB exSel3 exWeek10 rfl rfl

/-- The datetime ordering on games is transitive. -/
theorem byGameDatetime_trans (a b c : Game)
    (h1 : byGameDatetime a b) (h2 : byGameDatetime b c) : byGameDatetime a c := by
  unfold byGameDatetime at *
  simp only [decide_eq_true_eq] at *
  omega

/-- The datetime ordering on games is total. -/
theorem byGameDatetime_total (a b : Game) : byGameDatetime a b || byGameDatetime b a := by
  unfold byGameDatetime
  simp only [Bool.or_eq_true, decide_eq_true_eq]
  omega

/-- Every game the lock query returns carries a start timestamp. -/
theorem timedWeekGames_isSome (db : DB) (week : Week) (g : Game)
    (hg : g ∈ timedWeekGames db week) : g.game_datetime.isSome := by
  unfold timedWeekGames at hg
  have h := (List.mem_filter.mp hg).2
  simp only [Bool.and_eq_true] at h
  exact h.2

/-- Claim C3: the lock time reported by `is_week_locked` is the minimum
start timestamp among the week's timed games, whatever their insertion
order; with no timed game it falls back to the week's stored `lock_time`,
and with neither it reports (not locked, none); `locked` is true iff the
current UTC time is at or after the lock time, equality included. -/
theorem week_lock_spec (now : Nat) (db : DB) (week : Week) :
    is_week_locked now db week =
      match (weekGameDatetimes db week).min? with
      | some m => (decide (m ≤ now), some m)
      | none =>
          match week.lock_time with
          | some lt => (decide (lt ≤ now), some lt)
          | none => (false, none) := by
  unfold is_week_locked firstTimedGame
  cases h : (timedWeekGames db week).mergeSort byGameDatetime with
  | nil =>
      have hnil : timedWeekGames db week = [] := by
        have hp := List.mergeSort_perm (timedWeekGames db week) byGameDatetime
        rw [h] at hp
        exact hp.symm.eq_nil
      have hdt : weekGameDatetimes db week = [] := by
        unfold weekGameDatetimes
        rw [hnil]
        rfl
      rw [hdt]
      cases week.lock_time <;> simp
  | cons g rest =>
      have hgsort : g ∈ (timedWeekGames db week).mergeSort byGameDatetime := by
        rw [h]
        exact List.mem_cons_self g rest
      have hgmem : g ∈ timedWeekGames db week := List.mem_mergeSort.mp hgsort
      obtain ⟨t, hgd⟩ := Option.isSome_iff_exists.mp (timedWeekGames_isSome db week g hgmem)
      have hmin : (weekGameDatetimes db week).min? = some t := by
        rw [List.min?_eq_some_iff']
        constructor
        · unfold weekGameDatetimes
          exact List.mem_filterMap.mpr ⟨g, hgmem, hgd⟩
        · intro b hb
          unfold weekGameDatetimes at hb
          obtain ⟨g', hg'mem, hg'd⟩ := List.mem_filterMap.mp hb
          have hg'sort : g' ∈ g :: rest := by
            rw [← h]
            exact List.mem_mergeSort.mpr hg'mem
          rcases List.mem_cons.mp hg'sort with hgg | hrest
          · rw [hgg] at hg'd
            rw [hgd] at hg'd
            injection hg'd with e
            omega
          · have hp := List.sorted_mergeSort byGameDatetime_trans byGameDatetime_total
              (timedWeekGames db week)
            rw [h] at hp
            have hle := List.rel_of_pairwise_cons hp hrest
            unfold byGameDatetime at hle
            rw [hgd, hg'd] at hle
            simpa using hle
      rw [hmin]
      simp [hgd]

/-- Claim C10: `get_week_lock_time` returns exactly the lock-time
component of `is_week_locked`: same earliest-timed-game query, same
fallback to the stored `lock_time`, same `none` when neither exists. -/
theorem lock_time_refines_is_week_locked (now : Nat) (db : DB) (week : Week) :
    (is_week_locked now db week).2 = get_week_lock_time db week := by
  unfold is_week_locked get_week_lock_time
  cases firstTimedGame db week with
  | none => cases week.lock_time <;> rfl
  | some g =>
      cases hgd : g.game_datetime <;> cases hlt : week.lock_time <;> simp [hgd, hlt]

/-- Claim C7: the game update computes the winner as the side with the
strictly greater score, records no winner on equal scores, and persists
the two scores and the winner reference on the game in every case, the
degenerate week paths included. -/
theorem game_winner_and_scores_persisted (db : DB) (gid : String) (hs as : Int)
    (db' : DB) (res : GameUpdateResult) (game : Game)
    (hg : db.games.find? (fun g => g.nba_game_id == some gid) = some game)
    (h : update_game_and_recalculate_points db gid hs as = some (db', res)) :
    res.winner_id = (if as < hs then some game.home_team_id
      else if hs < as then some game.away_team_id else none)
    ∧ (hs = as → res.winner_id = none)
    ∧ ∃ g' ∈ db'.games, g'.id = game.id ∧ g'.home_team_score = some hs
        ∧ g'.away_team_score = some as ∧ g'.winner_id = res.winner_id := by
  have hmem := List.mem_of_find?_eq_some hg
  unfold update_game_and_recalculate_points at h
  rw [hg] at h
  dsimp only at h
  cases hd : game.date with
  | none =>
      rw [hd] at h
      simp only [Option.some.injEq, Prod.mk.injEq] at h
      obtain ⟨hdb, hres⟩ := h
      subst hdb
      subst hres
      refine ⟨rfl, ?_, ?_⟩
      · intro he
        subst he
        simp [gameWinner]
      · exact writeGameResult_games_mem db game hs as hmem
  | some d =>
      rw [hd] at h
      dsimp only at h
      cases hwk : get_week_for_date (writeGameResult db game hs as) d with
      | none =>
          rw [hwk] at h
          simp only [Option.some.injEq, Prod.mk.injEq] at h
          obtain ⟨hdb, hres⟩ := h
          subst hdb
          subst hres
          refine ⟨rfl, ?_, ?_⟩
          · intro he
            subst he
            simp [gameWinner]
          · exact writeGameResult_games_mem db game hs as hmem
      | some week =>
          rw [hwk] at h
          dsimp only at h
          simp only [Option.some.injEq, Prod.mk.injEq] at h
          obtain ⟨hdb, hres⟩ := h
          subst hdb
          subst hres
          refine ⟨rfl, ?_, ?_⟩
          · intro he
            subst he
            simp [gameWinner]
          · exact writeGameResult_games_mem db game hs as hmem

/-- Closed instance of claim C7: scoring game 1 of the sample database
95–100 records team 200 as winner and persists both scores. -/
theorem game_winner_and_scores_persisted_witness :
    exUpdPair7.2.winner_id = (if (100 : Int) < 95 then some exGame1.home_team_id
      else if (95 : Int) < 100 then some exGame1.away_team_id else none)
    ∧ ((95 : Int) = 100 → exUpdPair7.2.winner_id = none)
    ∧ ∃ g' ∈ exUpdPair7.1.games, g'.id = exGame1.id ∧ g'.home_team_score = some 95
        ∧ g'.away_team_score = some 100 ∧ g'.winner_id = exUpdPair7.2.winner_id :=
  game_winner_and_scores_persisted exDB "G1" 95 100 exUpdPair7.1 exUpdPair7.2 exGame1 rfl rfl

/-- Claim C8: when the game's date resolves to no week, the update still
returns a payload (no exception): the winner and scores remain written on
the game, the payload reports zero affected users, zero points, and the
informational error string. -/
theorem missing_week_degrades_gracefully (db : DB) (gid : String) (hs as : Int)
    (game : Game) (d : Nat)
    (hg : db.games.find? (fun g => g.nba_game_id == some gid) = some game)
    (hd : game.date = some d)
    (hwk : get_week_for_date db d = none) :
    ∃ db' res, update_game_and_recalculate_points db gid hs as = some (db', res)
      ∧ res.affected_users = 0 ∧ res.points_awarded = 0
      ∧ res.error = some "Could not determine week"
      ∧ ∃ g' ∈ db'.games, g'.id = game.id ∧ g'.home_team_score = some hs
          ∧ g'.away_team_score = some as ∧ g'.winner_id = gameWinner game hs as := by
  have hmem := List.mem_of_find?_eq_some hg
  refine ⟨writeGameResult db game hs as,
    { winner_id := gameWinner game hs as, week_number := none,
      affected_users := 0, points_awarded := 0,
      error := some "Could not determine week" }, ?_, rfl, rfl, rfl, ?_⟩
  · unfold update_game_and_recalculate_points
    rw [hg]
    dsimp only
    rw [hd]
    dsimp only
    have hwk' : get_week_for_date (writeGameResult db game hs as) d = none := hwk
    rw [hwk']
  · exact writeGameResult_games_mem db game hs as hmem

/-- Closed instance of claim C8: game 3's date (999) falls in no week;
its score write survives and the payload reports the degenerate case. -/
theorem missing_week_degrades_gracefully_witness :
    ∃ db' res, update_game_and_recalculate_points exDB "G3" 100 90 = some (db', res)
      ∧ res.affected_users = 0 ∧ res.points_awarded = 0
      ∧ res.error = some "Could not determine week"
      ∧ ∃ g' ∈ db'.games, g'.id = exGame3.id ∧ g'.home_team_score = some 100
          ∧ g'.away_team_score = some 90 ∧ g'.winner_id = gameWinner exGame3 100 90 :=
  missing_week_degrades_gracefully exDB "G3" 100 90 exGame3 999 rfl rfl rfl

/-- Claim C4: when the update resolves a week for the game's date (by
date-range lookup), every selection stored for that week — every team and
every user — leaves the pass holding freshly computed points, every user
with a selection in the week (in particular every user whose selection
changed) is re-summed over all their selections across all seasons, and
the payload reports the count of distinct affected users and the sum of
the points now stored on the week's recomputed selections. -/
theorem game_update_recomputes_week (db : DB) (gid : String) (hs as : Int)
    (db' : DB) (res : GameUpdateResult) (game : Game) (d : Nat) (week : Week)
    (hg : db.games.find? (fun g => g.nba_game_id == some gid) = some game)
    (hd : game.date = some d)
    (hwk : get_week_for_date db d = some week)
    (h : update_game_and_recalculate_points db gid hs as = some (db', res)) :
    (∀ s ∈ db'.selections, s.week_id = week.id →
        s.total_points = some (calculate_selection_points db' s))
    ∧ (∀ u ∈ db'.users, u.id ∈ weekSelectionUserIds db'.selections week.id →
        u.total_points = sumUserSelectionPoints db'.selections u.id)
    ∧ res.affected_users = (weekSelectionUserIds db'.selections week.id).length
    ∧ res.points_awarded =
        ((db'.selections.filter (fun s => s.week_id == week.id)).map
          (fun s => s.total_points.getD 0)).sum
    ∧ res.week_number = some week.number := by
  unfold update_game_and_recalculate_points at h
  rw [hg] at h
  dsimp only at h
  rw [hd] at h
  dsimp only at h
  have hwk' : get_week_for_date (writeGameResult db game hs as) d = some week := hwk
  rw [hwk'] at h
  dsimp only at h
  simp only [Option.some.injEq, Prod.mk.injEq] at h
  obtain ⟨hdb, hres⟩ := h
  subst hdb
  subst hres
  dsimp only
  refine ⟨?_, ?_, ?_, ?_, rfl⟩
  · intro s hsmem hsw
    have hs' : s ∈ (recomputeWeekSelections (writeGameResult db game hs as) week).selections :=
      hsmem
    have ht := recomputeWeekSelections_points (writeGameResult db game hs as) week s hs' hsw
    rw [ht]
    exact congrArg some
      (calculate_selection_points_congr (writeGameResult db game hs as) _ s rfl rfl)
  · intro u humem hid
    have hid' : u.id ∈ weekSelectionUserIds
        (writeGameResult db game hs as).selections week.id := by
      rw [← weekSelectionUserIds_recompute (writeGameResult db game hs as) week week.id]
      exact hid
    exact resumUsers_total
      (recomputeWeekSelections (writeGameResult db game hs as) week).users
      (recomputeWeekSelections (writeGameResult db game hs as) week).selections
      (weekSelectionUserIds (writeGameResult db game hs as).selections week.id)
      u humem hid'
  · rw [weekSelectionUserIds_recompute (writeGameResult db game hs as) week week.id]
  · exact (weekPointsAwarded_stored (writeGameResult db game hs as) week).symm

/-- Closed instance of claim C4: scoring game 2 of the sample database
80–95 recomputes all three selections of week 1, re-sums user 1, and
reports three affected users with the week's stored points total. -/
theorem game_update_recomputes_week_witness :
    (exUpdPair.1.selections.getD 0 default).total_points =
      some (calculate_selection_points exUpdPair.1 (exUpdPair.1.selections.getD 0 default))
    ∧ (exUpdPair.1.users.getD 0 default).total_points =
        sumUserSelectionPoints exUpdPair.1.selections (exUpdPair.1.users.getD 0 default).id
    ∧ exUpdPair.2.affected_users =
        (weekSelectionUserIds exUpdPair.1.selections exWeek10.id).length
    ∧ exUpdPair.2.points_awarded =
        ((exUpdPair.1.selections.filter (fun s => s.week_id == exWeek10.id)).map
          (fun s => s.total_points.getD 0)).sum
    ∧ exUpdPair.2.week_number = some exWeek10.number := by
  have h := game_update_recomputes_week exDB "G2" 80 95 exUpdPair.1 exUpdPair.2
    exGame2 102 exWeek10 rfl rfl rfl rfl
  exact ⟨h.1 _ (by decide) (by decide), h.2.1 _ (by decide) (by decide),
    h.2.2.1, h.2.2.2.1, h.2.2.2.2⟩

/-- Claim C5: after each recomputation pass, every user it re-summed
holds `total_points` equal to the sum of stored points over all of that
user's selections, across all seasons; full recalculation establishes
the equality for every user in the dataset.  User totals are only ever
re-derived through this full sum, never adjusted incrementally. -/
theorem user_totals_resummed_invariant :
    (∀ db : DB, ∀ gid : String, ∀ hs as : Int, ∀ db' : DB, ∀ res : GameUpdateResult,
      ∀ game : Game, ∀ d : Nat, ∀ week : Week,
        db.games.find? (fun g => g.nba_game_id == some gid) = some game →
        game.date = some d →
        get_week_for_date db d = some week →
        update_game_and_recalculate_points db gid hs as = some (db', res) →
        ∀ u ∈ db'.users, u.id ∈ weekSelectionUserIds db'.selections week.id →
          u.total_points = sumUserSelectionPoints db'.selections u.id)
    ∧ (∀ db : DB, ∀ u ∈ (recalculate_all_points db).1.users,
        u.total_points = sumUserSelectionPoints (recalculate_all_points db).1.selections u.id)
    ∧ (∀ db : DB, ∀ sid : Nat, ∀ db' : DB, ∀ res : RetabulateResult,
        retabulate_season db sid = some (db', res) →
        ∀ u ∈ db'.users, u.id ∈ seasonSelectionUserIds db.selections sid →
          u.total_points = sumUserSelectionPoints db'.selections u.id) := by
  refine ⟨?_, ?_, ?_⟩
  · intro db gid hs as db' res game d week hg hd hwk h
    unfold update_game_and_recalculate_points at h
    rw [hg] at h
    dsimp only at h
    rw [hd] at h
    dsimp only at h
    have hwk' : get_week_for_date (writeGameResult db game hs as) d = some week := hwk
    rw [hwk'] at h
    dsimp only at h
    simp only [Option.some.injEq, Prod.mk.injEq] at h
    obtain ⟨hdb, hres⟩ := h
    subst hdb
    subst hres
    intro u humem hid
    have hid' : u.id ∈ weekSelectionUserIds
        (writeGameResult db game hs as).selections week.id := by
      rw [← weekSelectionUserIds_recompute (writeGameResult db game hs as) week week.id]
      exact hid
    exact resumUsers_total
      (recomputeWeekSelections (writeGameResult db game hs as) week).users
      (recomputeWeekSelections (writeGameResult db game hs as) week).selections
      (weekSelectionUserIds (writeGameResult db game hs as).selections week.id)
      u humem hid'
  · intro db u hu
    unfold recalculate_all_points at hu ⊢
    dsimp only at hu ⊢
    obtain ⟨u0, hu0, heq⟩ := List.mem_map.mp hu
    rw [← heq]
  · intro db sid db' res h u humem hid
    unfold retabulate_season at h
    cases hseason : db.seasons.find? (fun s => s.id == sid) with
    | none =>
        rw [hseason] at h
        simp at h
    | some season =>
        rw [hseason] at h
        dsimp only at h
        by_cases hemp : (db.selections.filter (fun s => s.season_id == sid)).isEmpty = true
        · rw [if_pos hemp] at h
          have hfil : db.selections.filter (fun s => s.season_id == sid) = [] :=
            List.isEmpty_iff.mp hemp
          unfold seasonSelectionUserIds at hid
          rw [hfil] at hid
          simp at hid
        · rw [if_neg hemp] at h
          simp only [Option.some.injEq, Prod.mk.injEq] at h
          obtain ⟨hdb, hres⟩ := h
          subst hdb
          subst hres
          exact resumUsers_total
            (recomputeSeasonSelections db sid).users
            (recomputeSeasonSelections db sid).selections
            (seasonSelectionUserIds db.selections sid)
            u humem hid

/-- Closed instance of claim C5: the invariant holds for user 2 after the
game-2 update, user 3 after full recalculation, and user 2 after the
season-1 retabulation of the sample database. -/
theorem user_totals_resummed_invariant_witness :
    (exUpdPair.1.users.getD 1 default).total_points =
        sumUserSelectionPoints exUpdPair.1.selections (exUpdPair.1.users.getD 1 default).id
    ∧ (exRecalcDB.users.getD 2 default).total_points =
        sumUserSelectionPoints exRecalcDB.selections (exRecalcDB.users.getD 2 default).id
    ∧ (exRetabPair.1.users.getD 1 default).total_points =
        sumUserSelectionPoints exRetabPair.1.selections (exRetabPair.1.users.getD 1 default).id := by
  refine ⟨?_, ?_, ?_⟩
  · exact user_totals_resummed_invariant.1 exDB "G2" 80 95 exUpdPair.1 exUpdPair.2
      exGame2 102 exWeek10 rfl rfl rfl rfl _ (by decide) (by decide)
  · exact user_totals_resummed_invariant.2.1 exDB _ (by decide)
  · exact user_totals_resummed_invariant.2.2 exDB 1 exRetabPair.1 exRetabPair.2 rfl
      _ (by decide) (by decide)

/-- `recalculate_all_points` only reads the totals-stripped tables: two
states agreeing after the reset step recalculate identically. -/
theorem recalculate_all_points_congr (db db' : DB)
    (hu : db.users.map (fun u => { u with total_points := 0 }) =
          db'.users.map (fun u => { u with total_points := 0 }))
    (hs : db.selections.map (fun s => { s with total_points := some 0 }) =
          db'.selections.map (fun s => { s with total_points := some 0 }))
    (hw : db.weeks = db'.weeks) (hg : db.games = db'.games)
    (hss : db.seasons = db'.seasons) :
    recalculate_all_points db = recalculate_all_points db' := by
  unfold recalculate_all_points
  rw [hw, hg, hss, hu, hs]

/-- Claim C6: full recalculation is idempotent — running it twice from
any state produces the same database state (hence identical selection
and user totals) as running it once. -/
theorem recalculate_all_idempotent (db : DB) :
    (recalculate_all_points (recalculate_all_points db).1).1 =
      (recalculate_all_points db).1 := by
  have hu : (recalculate_all_points db).1.users.map
      (fun u => { u with total_points := (0 : Int) }) =
      db.users.map (fun u => { u with total_points := (0 : Int) }) := by
    unfold recalculate_all_points
    dsimp only
    simp only [List.map_map]
    rfl
  have hs : (recalculate_all_points db).1.selections.map
      (fun s => { s with total_points := some (0 : Int) }) =
      db.selections.map (fun s => { s with total_points := some (0 : Int) }) := by
    unfold recalculate_all_points
    dsimp only
    simp only [List.map_map]
    rfl
  exact congrArg Prod.fst (recalculate_all_points_congr (recalculate_all_points db).1 db
    hu hs rfl rfl rfl)

/-- Claim C9: season retabulation fails (raises) exactly when the season
id resolves to no season; an existing season with zero selections yields
an all-zero report with an empty change list and an unchanged state; and
every selection whose stored points differ from the recomputed ones
contributes a change record carrying old points, new points, their
difference, and both modifiers. -/
theorem retabulate_season_report_spec (db : DB) (sid : Nat) :
    (retabulate_season db sid = none ↔
      db.seasons.find? (fun s => s.id == sid) = none)
    ∧ (∀ season, db.seasons.find? (fun s => s.id == sid) = some season →
        (db.selections.filter (fun s => s.season_id == sid)).isEmpty = true →
        retabulate_season db sid = some (db,
          { season_id := sid, season_year := season.year, selections_found := 0,
            selections_updated := 0, users_affected := 0,
            total_points_awarded := 0, changes := [] }))
    ∧ (∀ db' : DB, ∀ res : RetabulateResult,
        retabulate_season db sid = some (db', res) →
        ∀ s ∈ db.selections, s.season_id = sid →
          s.total_points.getD 0 ≠ calculate_selection_points db s →
          ∃ c ∈ res.changes, changeFor db s = some c
            ∧ c.user_id = s.user_id ∧ c.team_id = s.team_id
            ∧ c.old_points = s.total_points.getD 0
            ∧ c.new_points = calculate_selection_points db s
            ∧ c.difference = calculate_selection_points db s - s.total_points.getD 0
            ∧ c.is_superweek = s.is_superweek
            ∧ c.is_shoot_the_moon = s.is_shoot_the_moon) := by
  refine ⟨?_, ?_, ?_⟩
  · unfold retabulate_season
    cases hseason : db.seasons.find? (fun s => s.id == sid) with
    | none => simp
    | some season =>
        dsimp only
        by_cases hemp : (db.selections.filter (fun s => s.season_id == sid)).isEmpty = true
        · rw [if_pos hemp]
          simp
        · rw [if_neg hemp]
          simp
  · intro season hseason hemp
    unfold retabulate_season
    rw [hseason]
    dsimp only
    rw [if_pos hemp]
  · intro db' res h s hsmem hsid hne
    have hsfil : s ∈ db.selections.filter (fun s => s.season_id == sid) :=
      List.mem_filter.mpr ⟨hsmem, beq_iff_eq.mpr hsid⟩
    unfold retabulate_season at h
    cases hseason : db.seasons.find? (fun s => s.id == sid) with
    | none =>
        rw [hseason] at h
        simp at h
    | some season =>
        rw [hseason] at h
        dsimp only at h
        by_cases hemp : (db.selections.filter (fun s => s.season_id == sid)).isEmpty = true
        · rw [List.isEmpty_iff.mp hemp] at hsfil
          simp at hsfil
        · rw [if_neg hemp] at h
          simp only [Option.some.injEq, Prod.mk.injEq] at h
          obtain ⟨hdb, hres⟩ := h
          subst hdb
          subst hres
          obtain ⟨c, hc, hfields⟩ := changeFor_fields_of_ne db s hne
          exact ⟨c, List.mem_filterMap.mpr ⟨s, hsfil, hc⟩, hc, hfields⟩

/-- Closed instance of claim C9: retabulating empty season 2 of the
sample database yields the all-zero report, and stale selection 2 of
season 1 contributes a change record with its old and new points. -/
theorem retabulate_season_report_spec_witness :
    retabulate_season exDB 2 = some (exDB,
      { season_id := 2, season_year := 2025, selections_found := 0,
        selections_updated := 0, users_affected := 0,
        total_points_awarded := 0, changes := [] })
    ∧ ∃ c ∈ exRetabPair.2.changes, changeFor exDB exSel2 = some c
        ∧ c.user_id = exSel2.user_id ∧ c.team_id = exSel2.team_id
        ∧ c.old_points = exSel2.total_points.getD 0
        ∧ c.new_points = calculate_selection_points exDB exSel2
        ∧ c.difference = calculate_selection_points exDB exSel2 - exSel2.total_points.getD 0
        ∧ c.is_superweek = exSel2.is_superweek
        ∧ c.is_shoot_the_moon = exSel2.is_shoot_the_moon := by
  refine ⟨(retabulate_season_report_spec exDB 2).2.1 { id := 2, year := 2025 } rfl rfl, ?_⟩
  exact (retabulate_season_report_spec exDB 1).2.2 exRetabPair.1 exRetabPair.2 rfl exSel2
    (by decide) rfl (by decide)

end NbaPickem
